import Mathlib

/-!
Verification of the LifeQueue triage decision engine
(`src/services/llmTriage.ts`) and the risk-level mapping in
`src/components/ECGWaveform.tsx`.

The TypeScript source is shallowly embedded: JavaScript string and number
primitives (`toLowerCase`, `includes`, `split`, `trim`, `replace`,
`parseInt`, NaN comparisons, truthiness) are modelled as executable Lean
functions on `List Char` / `Int`, the `fallbackAnalysis` rule engine is a
pure function, and the remote call inside `analyzeTriage` is modelled by an
explicit `RemoteOutcome` value together with an abstract JSON decoder
`parseJson : String → Option JVal` standing for `JSON.parse` (which may
fail). Floating-point confidence constants carry out no arithmetic in the
source, so they are modelled exactly as rationals.
-/

namespace LifeQueue

/-! ## JavaScript primitive semantics -/

/-- Whitespace recognised by JS `trim` / `parseInt` (ASCII subset). -/
def jsWhitespaceChar (c : Char) : Bool :=
  c == ' ' || c == '\t' || c == '\n' || c == '\r' || c == '\x0b' || c == '\x0c'

/-- List-level prefix test (JS `startsWith` on code units). -/
def listIsPre : List Char → List Char → Bool
  | [], _ => true
  | _ :: _, [] => false
  | a :: as, b :: bs => a == b && listIsPre as bs

/-- List-level substring test. -/
def listIsSub (pat : List Char) : List Char → Bool
  | [] => pat.isEmpty
  | c :: rest => listIsPre pat (c :: rest) || listIsSub pat rest

/-- JS `s.includes(pat)`. -/
def includesJS (s pat : String) : Bool :=
  listIsSub pat.data s.data

/-- ASCII lower-casing of one character (JS `toLowerCase` on ASCII input). -/
def toLowerChar (c : Char) : Char :=
  if 65 ≤ c.toNat ∧ c.toNat ≤ 90 then Char.ofNat (c.toNat + 32) else c

/-- JS `s.toLowerCase()` (ASCII fragment). -/
def toLowerJS (s : String) : String :=
  ⟨s.data.map toLowerChar⟩

/-- JS `s.split(sep)` for a single-character separator: `""` yields `[""]`,
separators at the ends yield empty fields. -/
def splitOnChar (sep : Char) : List Char → List (List Char)
  | [] => [[]]
  | c :: rest =>
    if c == sep then [] :: splitOnChar sep rest
    else
      match splitOnChar sep rest with
      | g :: gs => (c :: g) :: gs
      | [] => [[c]]

/-- JS `s.split('/')`. -/
def splitOnSlash (s : String) : List String :=
  (splitOnChar '/' s.data).map String.mk

/-- JS `s.trim()`: drop whitespace from both ends. -/
def trimJS (s : String) : String :=
  ⟨((s.data.dropWhile jsWhitespaceChar).reverse.dropWhile jsWhitespaceChar).reverse⟩

/-- Leading decimal digits of a character list. -/
def decDigits : List Char → List Char
  | [] => []
  | c :: cs => if c.isDigit then c :: decDigits cs else []

/-- Hexadecimal digit test. -/
def isHexChar (c : Char) : Bool :=
  c.isDigit || (97 ≤ c.toNat && c.toNat ≤ 102) || (65 ≤ c.toNat && c.toNat ≤ 70)

/-- Leading hexadecimal digits of a character list. -/
def hexDigits : List Char → List Char
  | [] => []
  | c :: cs => if isHexChar c then c :: hexDigits cs else []

/-- Numeric value of a decimal digit. -/
def decVal (c : Char) : Nat := c.toNat - 48

/-- Numeric value of a hexadecimal digit. -/
def hexVal (c : Char) : Nat :=
  if c.isDigit then c.toNat - 48
  else if 97 ≤ c.toNat then c.toNat - 87
  else c.toNat - 55

/-- Accumulate a digit list in the given base. -/
def digitsFold (base : Nat) (val : Char → Nat) (ds : List Char) : Nat :=
  ds.foldl (fun acc c => acc * base + val c) 0

/-- JS `parseInt(s)` with default radix: skip leading whitespace, optional
sign, `0x`/`0X` selects base 16, otherwise the longest prefix of decimal
digits; `none` models the NaN result. -/
def parseIntJS (s : String) : Option Int :=
  let cs := s.data.dropWhile jsWhitespaceChar
  let signed : Int × List Char :=
    match cs with
    | '-' :: t => (-1, t)
    | '+' :: t => (1, t)
    | t => (1, t)
  let sgn := signed.1
  match signed.2 with
  | '0' :: x :: t =>
    if x == 'x' || x == 'X' then
      match hexDigits t with
      | [] => none
      | ds => some (sgn * (digitsFold 16 hexVal ds : Nat))
    else
      some (sgn * (digitsFold 10 decVal (decDigits ('0' :: x :: t)) : Nat))
  | rest =>
    match decDigits rest with
    | [] => none
    | ds => some (sgn * (digitsFold 10 decVal ds : Nat))

/-- JS `n > bound` where `n` may be NaN (`none`): NaN comparisons are false. -/
def nanGtInt : Option Int → Int → Bool
  | some n, bound => decide (bound < n)
  | none, _ => false

/-- Fuel-indexed global literal replacement (JS `s.replace(/pat/g, repl)`)
scanning left to right without overlap; the fuel is the length of the
scanned list, which bounds the number of steps. -/
def replaceFuel (pat repl : List Char) : Nat → List Char → List Char
  | _, [] => []
  | 0, s => s
  | Nat.succ fuel, c :: rest =>
    if pat ≠ [] ∧ listIsPre pat (c :: rest) = true then
      repl ++ replaceFuel pat repl fuel (List.drop (pat.length - 1) rest)
    else
      c :: replaceFuel pat repl fuel rest

/-- JS `s.replace(/pat/g, repl)` for a literal pattern. -/
def replaceAllJS (s pat repl : String) : String :=
  ⟨replaceFuel pat.data repl.data s.data.length s.data⟩

/-! ## Data model (`src/services/llmTriage.ts`, section 1) -/

structure PatientProfile where
  age : String
  gender : String
  current_bp : String
  blood_group : String
deriving Repr, DecidableEq

structure VitalSigns where
  heart_rate : Int
  blood_pressure : String
  spo2 : Int
deriving Repr, DecidableEq

structure ContextualPayload where
  patient_profile : PatientProfile
  symptom_transcript : String
  ehr_history : String
  neuro_risk_detected : Bool
  vital_signs : VitalSigns
deriving Repr, DecidableEq

structure TriageResult where
  risk_score : Int
  department : String
  justification : String
  confidence : ℚ
  fallback_used : Bool
deriving Repr, DecidableEq

/-! ## The rule engine (`fallbackAnalysis`, lines 37-111)

The source computes lowercase `transcript` and `history` and the parsed
`age` up front, then walks an early-return chain of five rules. Each rule
condition and each returned record literal is named below; the early-return
chain becomes a nested if-else. -/

/-- Rule A condition (lines 45-50): split the blood pressure on `'/'`; with
exactly two parts, compare `parseInt` of each part against the thresholds
(a NaN part compares false). -/
def crisisCond (blood_pressure : String) : Bool :=
  match splitOnSlash blood_pressure with
  | [p0, p1] => nanGtInt (parseIntJS p0) 180 || nanGtInt (parseIntJS p1) 110
  | _ => false

/-- Rule A result (lines 51-57). -/
def crisisResult (blood_pressure : String) : TriageResult :=
  { risk_score := 95
    department := "Cardiology"
    justification :=
      "CRITICAL: Hypertensive Crisis detected (BP " ++ blood_pressure ++
      "). Immediate Cardiology intervention required."
    confidence := 0.9
    fallback_used := true }

/-- Neuro keyword list (line 62). -/
def neuroKeywords : List String :=
  ["shake", "shaking", "tremor", "stiff", "frozen", "slur", "forget",
   "nadukkam", "kampan"]

/-- Rule B condition (line 64): sticky flag or any keyword in the lowercase
transcript. -/
def neuroCond (neuro_risk_detected : Bool) (transcript : String) : Bool :=
  neuro_risk_detected || neuroKeywords.any (fun k => includesJS transcript k)

/-- Rule B result (lines 65-71). -/
def neuroResult : TriageResult :=
  { risk_score := 88
    department := "Neurology"
    justification :=
      "Vocal biomarkers (Tremor/Stiffness) indicate neurological risk despite normal vitals."
    confidence := 0.85
    fallback_used := true }

/-- Line 75. -/
def hasDiabetes (history : String) : Bool :=
  includesJS history "diabetes" || includesJS history "diabetic"

/-- Line 76. -/
def hasFever (transcript : String) : Bool :=
  includesJS transcript "fever" || includesJS transcript "temperature" ||
  includesJS transcript "hot"

/-- Lines 77-79. -/
def hasAbdominalSymptoms (transcript : String) : Bool :=
  includesJS transcript "stomach" || includesJS transcript "abdominal" ||
  includesJS transcript "belly" || includesJS transcript "abdomen" ||
  includesJS transcript "ache" || includesJS transcript "pain"

/-- Rule C result (lines 82-89): the score is 52 for age >= 50, else 48. -/
def diabetesResult (age : Int) : TriageResult :=
  { risk_score := if 50 ≤ age then 52 else 48
    department := "General Medicine"
    justification :=
      "A " ++ toString age ++
      "-year-old patient with a history of Diabetes presenting with acute fever and abdominal distress. Diabetic status increases the risk of rapid clinical deterioration or underlying infection (e.g., DKA or gastroenteritis). Moderate risk due to metabolic history. Routing to General Medicine for vital stabilization and glucose monitoring."
    confidence := 0.8
    fallback_used := true }

/-- Rule D result (lines 94-100). -/
def ageHistoryResult : TriageResult :=
  { risk_score := 45
    department := "General Medicine"
    justification :=
      "Patient over 50 with pre-existing conditions requires evaluation. Moderate risk due to age and medical history."
    confidence := 0.7
    fallback_used := true }

/-- Rule E result (lines 104-110): the default low-risk classification. -/
def lowRiskResult : TriageResult :=
  { risk_score := 15
    department := "General Medicine"
    justification :=
      "Vitals stable, no critical keywords detected. Routine checkup recommended."
    confidence := 0.6
    fallback_used := true }

/-- Rules B-E: the tail of the early-return chain once the blood-pressure
rule has not fired. -/
def fallbackRulesAfterBP (transcript history : String) (age : Int)
    (neuro_risk_detected : Bool) : TriageResult :=
  if neuroCond neuro_risk_detected transcript then neuroResult
  else if hasDiabetes history && (hasFever transcript || hasAbdominalSymptoms transcript) then
    diabetesResult age
  else if 50 ≤ age ∧ 0 < (trimJS history).data.length then ageHistoryResult
  else lowRiskResult

/-- The full early-return chain of `fallbackAnalysis` over its extracted
locals. -/
def fallbackRules (transcript history : String) (age : Int)
    (neuro_risk_detected : Bool) (blood_pressure : String) : TriageResult :=
  if crisisCond blood_pressure then crisisResult blood_pressure
  else fallbackRulesAfterBP transcript history age neuro_risk_detected

/-- Line 42: `parseInt(payload.patient_profile.age) || 0` (NaN becomes 0). -/
def ageOf (payload : ContextualPayload) : Int :=
  (parseIntJS payload.patient_profile.age).getD 0

/-- `fallbackAnalysis` (lines 37-111). -/
def fallbackAnalysis (payload : ContextualPayload) : TriageResult :=
  fallbackRules (toLowerJS payload.symptom_transcript)
    (toLowerJS payload.ehr_history) (ageOf payload)
    payload.neuro_risk_detected payload.vital_signs.blood_pressure

/-- Rules B-E applied to a payload: what `fallbackAnalysis` computes when
the blood-pressure rule does not fire. -/
def fallbackAfterBP (payload : ContextualPayload) : TriageResult :=
  fallbackRulesAfterBP (toLowerJS payload.symptom_transcript)
    (toLowerJS payload.ehr_history) (ageOf payload)
    payload.neuro_risk_detected

/-! ## The orchestrator (`analyzeTriage`, lines 114-183)

The remote provider is an untrusted boundary: the fetch either throws
(network error, abort on the 8s timeout), yields a non-ok HTTP status (the
source then throws inside the `try`), or yields a body whose
`candidates?.[0]?.content?.parts?.[0]?.text` optional chain produces a
string or `undefined`. `JSON.parse` is modelled by an abstract decoder
`parseJson : String → Option JVal`; a runtime JSON value is `JVal`, with
`jundefined` for the result of a missing-property access. -/

/-- Runtime JSON values plus `undefined`. -/
inductive JVal where
  | jundefined
  | jnull
  | jbool (b : Bool)
  | jnum (n : Int)
  | jstr (s : String)
  | jarr (elems : List JVal)
  | jobj (fields : List (String × JVal))

/-- JS property access `v.k` on a decoded value (`undefined` when absent or
when `v` is not an object). -/
def getProp (v : JVal) (k : String) : JVal :=
  match v with
  | .jobj fields =>
    match fields.find? (fun f => f.1 == k) with
    | some f => f.2
    | none => .jundefined
  | _ => .jundefined

/-- JS truthiness of a decoded value (`!v` is `!truthy v`). -/
def truthy : JVal → Bool
  | .jundefined => false
  | .jnull => false
  | .jbool b => b
  | .jnum n => decide (n ≠ 0)
  | .jstr s => decide (s ≠ "")
  | .jarr _ => true
  | .jobj _ => true

/-- The result record of `analyzeTriage`: on the success path the three
remote fields are passed through as raw runtime values. -/
structure TriageResultJS where
  risk_score : JVal
  department : JVal
  justification : JVal
  confidence : ℚ
  fallback_used : Bool

/-- Injection of a rule-engine result into the runtime-value record. -/
def toJS (r : TriageResult) : TriageResultJS :=
  { risk_score := .jnum r.risk_score
    department := .jstr r.department
    justification := .jstr r.justification
    confidence := r.confidence
    fallback_used := r.fallback_used }

/-- Outcome of the single remote call: thrown fetch (network error), abort
of the 8-second timeout, non-ok HTTP status (lines 153-155), or a decoded
body whose optional chain gives `rawText` (line 160, `none` when any link
of the chain is missing). -/
inductive RemoteOutcome where
  | netError
  | timeout
  | httpError (status : Nat)
  | success (rawText : Option String)

/-- Line 160: `data.candidates?.[0]?.content?.parts?.[0]?.text || "{}"`
(an absent or empty text falls back to `"\x7b\x7d"`). -/
def effectiveRawText : Option String → String
  | none => "\x7b\x7d"
  | some s => if s = "" then "\x7b\x7d" else s

/-- Lines 161-162: strip markdown code fences and trim. -/
def cleanJson (rawText : String) : String :=
  trimJS (replaceAllJS (replaceAllJS rawText "```json" "") "```" "")

/-- The rendered prompt (lines 120-136). -/
def promptText (payload : ContextualPayload) : String :=
  "\n    ACT AS A TRIAGE DOCTOR. Analyze this patient:\n    - Vitals: BP " ++
  payload.vital_signs.blood_pressure ++ ", HR " ++
  toString payload.vital_signs.heart_rate ++ ", SpO2 " ++
  toString payload.vital_signs.spo2 ++ "\n    - Symptoms: " ++
  payload.symptom_transcript ++ "\n    - History: " ++
  payload.ehr_history ++
  "\n    \n    TASK: Return a JSON object with:\n    1. risk_score (0-100)\n    2. department (Cardiology, Neurology, Pulmonology, or General Medicine)\n    3. justification (Max 20 words, concise clinical reasoning)\n\n    RULES: \n    - IF BP > 180 OR \"chest pain\" in symptoms -> High Risk (Cardiology).\n    - IF \"shake\", \"tremor\", \"stiff\" in symptoms -> High Risk (Neurology).\n    \n    RETURN JSON ONLY. NO MARKDOWN.\n  "

/-- `analyzeTriage` (lines 114-183): every thrown path of the `try` block
lands in the `catch` and returns `fallbackAnalysis(payload)`; a decoded
object passes the line-166 check `!result.risk_score || !result.department`
only when both properties are truthy, and is then passed through with
`confidence` 0.9 and `fallback_used` false. -/
def analyzeTriage (parseJson : String → Option JVal)
    (payload : ContextualPayload) (outcome : RemoteOutcome) : TriageResultJS :=
  match outcome with
  | .netError => toJS (fallbackAnalysis payload)
  | .timeout => toJS (fallbackAnalysis payload)
  | .httpError _ => toJS (fallbackAnalysis payload)
  | .success rawOpt =>
    let jsonString := cleanJson (effectiveRawText rawOpt)
    match parseJson jsonString with
    | none => toJS (fallbackAnalysis payload)
    | some result =>
      if truthy (getProp result "risk_score") && truthy (getProp result "department") then
        { risk_score := getProp result "risk_score"
          department := getProp result "department"
          justification := getProp result "justification"
          confidence := 0.9
          fallback_used := false }
      else toJS (fallbackAnalysis payload)

/-! ## Risk-level mapping (`src/components/ECGWaveform.tsx`)

The component maps `llmResult.risk_score` to a coarse label twice with
identical code: once in the debounced auto-analysis effect and once in
`initiateDiagnosis`. Both occurrences are embedded separately. -/

inductive RiskLevel where
  | HIGH
  | MEDIUM
  | LOW
deriving Repr, DecidableEq

/-- The mapping in the auto-analysis effect. -/
def mapRiskLevelAuto (risk_score : Int) : RiskLevel :=
  if 75 ≤ risk_score then .HIGH
  else if 40 ≤ risk_score then .MEDIUM
  else .LOW

/-- The mapping in `initiateDiagnosis`. -/
def mapRiskLevelManual (risk_score : Int) : RiskLevel :=
  if 75 ≤ risk_score then .HIGH
  else if 40 ≤ risk_score then .MEDIUM
  else .LOW

/-- Departments enumerated by the prompt and the spec. -/
def departmentEnum : List String :=
  ["Cardiology", "Neurology", "Pulmonology", "General Medicine"]

/-! ## Concrete payloads used as test fixtures -/

/-- Build a payload from the four fields the rule engine reads. -/
def mkTestPayload (age transcript history bp : String) (neuro : Bool) : ContextualPayload :=
  { patient_profile := { age := age, gender := "F", current_bp := bp, blood_group := "O+" }
    symptom_transcript := transcript
    ehr_history := history
    neuro_risk_detected := neuro
    vital_signs := { heart_rate := 75, blood_pressure := bp, spo2 := 98 } }

/-- Spec scenario A: BP 280/140. -/
def scenarioA : ContextualPayload := mkTestPayload "30" "" "" "280/140" false

/-- Spec scenario B: a tremor mentioned in the transcript. -/
def scenarioB : ContextualPayload := mkTestPayload "30" "patient has a tremor" "" "120/80" false

/-- Spec scenario C: normal vitals, benign transcript, no history, age 30. -/
def basePayload : ContextualPayload := mkTestPayload "30" "feeling fine" "" "120/80" false

/-- Spec scenario D: BP 145/95, mild headache, diabetes history, age 55. -/
def scenarioD : ContextualPayload := mkTestPayload "55" "mild headache" "diabetes" "145/95" false

/-- Payload whose diastolic blood-pressure part is not numeric. -/
def payload200abc : ContextualPayload := mkTestPayload "30" "" "" "200/abc" false

/-- Payload with neither blood-pressure part numeric. -/
def payloadAbcAbc : ContextualPayload := mkTestPayload "30" "" "" "abc/abc" false

/-- Payload aged 55 whose history is a single space. -/
def wsHistoryPayload : ContextualPayload := mkTestPayload "55" "" " " "120/80" false

/-- Payload with a slash-free blood pressure and a non-numeric age. -/
def garbledPayload : ContextualPayload := mkTestPayload "abc" "" "" "garbled" false

/-! ## String helper lemmas -/

theorem strData_append (x y : String) : (x ++ y).data = x.data ++ y.data := by
  cases x
  cases y
  rfl

theorem listIsPre_refl_append : ∀ (p t : List Char), listIsPre p (p ++ t) = true
  | [], _ => rfl
  | c :: cs, t => by simp [listIsPre, listIsPre_refl_append cs t]

theorem listIsPre_self (p : List Char) : listIsPre p p = true := by
  have h := listIsPre_refl_append p []
  rwa [List.append_nil] at h

theorem listIsSub_nil_pat : ∀ (s : List Char), listIsSub [] s = true
  | [] => rfl
  | _ :: rest => by simp [listIsSub, listIsPre]

theorem listIsSub_of_listIsPre {p s : List Char} (h : listIsPre p s = true) :
    listIsSub p s = true := by
  cases s with
  | nil =>
    cases p with
    | nil => rfl
    | cons c cs => simp [listIsPre] at h
  | cons c rest => simp [listIsSub, h]

theorem listIsPre_append_right : ∀ {p s : List Char} (_ : listIsPre p s = true)
    (t : List Char), listIsPre p (s ++ t) = true
  | [], _, _, _ => rfl
  | _ :: _, [], h, _ => by simp [listIsPre] at h
  | a :: as, b :: bs, h, t => by
    simp only [listIsPre, Bool.and_eq_true, beq_iff_eq] at h
    simp only [List.cons_append, listIsPre, Bool.and_eq_true, beq_iff_eq]
    exact ⟨h.1, listIsPre_append_right h.2 t⟩

theorem listIsSub_append_right {p s : List Char} (h : listIsSub p s = true)
    (t : List Char) : listIsSub p (s ++ t) = true := by
  induction s with
  | nil =>
    have hp : p = [] := by
      cases p with
      | nil => rfl
      | cons c cs => simp [listIsSub, List.isEmpty] at h
    rw [hp]
    exact listIsSub_nil_pat t
  | cons c rest ih =>
    simp only [listIsSub, Bool.or_eq_true] at h
    rcases h with h | h
    · simp only [List.cons_append, listIsSub, Bool.or_eq_true]
      exact Or.inl (listIsPre_append_right h t)
    · simp only [List.cons_append, listIsSub, Bool.or_eq_true]
      exact Or.inr (ih h)

theorem listIsSub_append_left (a : List Char) {p s : List Char}
    (h : listIsSub p s = true) : listIsSub p (a ++ s) = true := by
  induction a with
  | nil => exact h
  | cons c cs ih =>
    simp only [List.cons_append, listIsSub, Bool.or_eq_true]
    exact Or.inr ih

theorem includesJS_self (s : String) : includesJS s s = true :=
  listIsSub_of_listIsPre (listIsPre_self s.data)

theorem includesJS_mid (a b c : String) : includesJS (a ++ b ++ c) b = true := by
  unfold includesJS
  rw [strData_append, strData_append, List.append_assoc]
  exact listIsSub_append_left a.data
    (listIsSub_append_right (listIsSub_of_listIsPre (listIsPre_self b.data)) c.data)

theorem includesJS_left_chunk {pat a : String} (h : listIsSub pat.data a.data = true)
    (b c : String) : includesJS (a ++ b ++ c) pat = true := by
  unfold includesJS
  rw [strData_append, strData_append]
  exact listIsSub_append_right (listIsSub_append_right h b.data) c.data

theorem append3_ne_empty {a : String} (h : a.data ≠ []) (b c : String) :
    a ++ b ++ c ≠ "" := by
  intro he
  apply h
  have hd := congrArg String.data he
  rw [strData_append, strData_append] at hd
  have : a.data ++ b.data ++ c.data = ([] : List Char) := hd
  rcases List.append_eq_nil.mp this with ⟨h1, _⟩
  rcases List.append_eq_nil.mp h1 with ⟨h2, _⟩
  exact h2

/-! ## Rule-engine case analysis -/

theorem fallback_cases (p : ContextualPayload) :
    fallbackAnalysis p = crisisResult p.vital_signs.blood_pressure ∨
    fallbackAnalysis p = neuroResult ∨
    fallbackAnalysis p = diabetesResult (ageOf p) ∨
    fallbackAnalysis p = ageHistoryResult ∨
    fallbackAnalysis p = lowRiskResult := by
  unfold fallbackAnalysis fallbackRules fallbackRulesAfterBP
  split_ifs <;> tauto

/-- The six (risk score, confidence) pairs the rule engine can emit, in
rule order. -/
def fallbackPairs : List (Int × ℚ) :=
  [(95, 0.9), (88, 0.85), (52, 0.8), (48, 0.8), (45, 0.7), (15, 0.6)]

theorem fallback_pair_mem (p : ContextualPayload) :
    ((fallbackAnalysis p).risk_score, (fallbackAnalysis p).confidence) ∈ fallbackPairs := by
  rcases fallback_cases p with h | h | h | h | h <;> rw [h]
  · simp [crisisResult, fallbackPairs]
  · simp [neuroResult, fallbackPairs]
  · unfold diabetesResult
    split_ifs <;> simp [fallbackPairs]
  · simp [ageHistoryResult, fallbackPairs]
  · simp [lowRiskResult, fallbackPairs]

theorem fallback_used_true (p : ContextualPayload) :
    (fallbackAnalysis p).fallback_used = true := by
  rcases fallback_cases p with h | h | h | h | h <;> rw [h] <;> rfl

theorem fallback_dept_cases (p : ContextualPayload) :
    (fallbackAnalysis p).department ∈
      (["Cardiology", "Neurology", "General Medicine"] : List String) := by
  rcases fallback_cases p with h | h | h | h | h <;> rw [h] <;> simp
    [crisisResult, neuroResult, diabetesResult, ageHistoryResult, lowRiskResult]

theorem fallback_score_bounds (p : ContextualPayload) :
    0 ≤ (fallbackAnalysis p).risk_score ∧ (fallbackAnalysis p).risk_score ≤ 100 := by
  have h := fallback_pair_mem p
  simp only [fallbackPairs, List.mem_cons, List.not_mem_nil, or_false,
    Prod.mk.injEq] at h
  rcases h with ⟨h1, _⟩ | ⟨h1, _⟩ | ⟨h1, _⟩ | ⟨h1, _⟩ | ⟨h1, _⟩ | ⟨h1, _⟩ <;>
    rw [h1] <;> omega

theorem fallback_justification_ne (p : ContextualPayload) :
    (fallbackAnalysis p).justification ≠ "" := by
  rcases fallback_cases p with h | h | h | h | h <;> rw [h]
  · exact append3_ne_empty (by decide) _ _
  · decide
  · exact append3_ne_empty (by decide) _ _
  · decide
  · decide

/-! ## Claims -/

/-- C1: for every payload whose blood pressure splits as systolic/diastolic
with both parts parsing and systolic > 180 or diastolic > 110,
`fallbackAnalysis` returns risk score 95, department Cardiology, confidence
0.9, fallback_used true, and a justification containing the exact BP
reading and the words "Hypertensive Crisis" — regardless of transcript,
history, neuro flag, or age. -/
theorem crisis_precedence (payload : ContextualPayload) (p0 p1 : String)
    (sys dia : Int)
    (hsplit : splitOnSlash payload.vital_signs.blood_pressure = [p0, p1])
    (hp0 : parseIntJS p0 = some sys) (hp1 : parseIntJS p1 = some dia)
    (hgt : 180 < sys ∨ 110 < dia) :
    (fallbackAnalysis payload).risk_score = 95 ∧
    (fallbackAnalysis payload).department = "Cardiology" ∧
    (fallbackAnalysis payload).confidence = 0.9 ∧
    (fallbackAnalysis payload).fallback_used = true ∧
    includesJS (fallbackAnalysis payload).justification
      payload.vital_signs.blood_pressure = true ∧
    includesJS (fallbackAnalysis payload).justification "Hypertensive Crisis" = true := by
  have hc : crisisCond payload.vital_signs.blood_pressure = true := by
    unfold crisisCond
    rw [hsplit]
    show (nanGtInt (parseIntJS p0) 180 || nanGtInt (parseIntJS p1) 110) = true
    rw [hp0, hp1]
    rcases hgt with h | h <;> simp [nanGtInt, h]
  have hfa : fallbackAnalysis payload = crisisResult payload.vital_signs.blood_pressure := by
    unfold fallbackAnalysis fallbackRules
    simp [hc]
  rw [hfa]
  refine ⟨rfl, rfl, rfl, rfl, ?_, ?_⟩
  · exact includesJS_mid _ _ _
  · exact includesJS_left_chunk (by decide) _ _

/-- C1 witness: scenario A (BP 280/140). -/
theorem crisis_precedence_witness :
    (fallbackAnalysis scenarioA).risk_score = 95 ∧
    (fallbackAnalysis scenarioA).department = "Cardiology" ∧
    (fallbackAnalysis scenarioA).confidence = 0.9 ∧
    (fallbackAnalysis scenarioA).fallback_used = true ∧
    includesJS (fallbackAnalysis scenarioA).justification
      scenarioA.vital_signs.blood_pressure = true ∧
    includesJS (fallbackAnalysis scenarioA).justification "Hypertensive Crisis" = true :=
  crisis_precedence scenarioA "280" "140" 280 140 rfl rfl rfl (Or.inl (by decide))

/-- C3: when the blood-pressure crisis rule does not fire, a set neuro flag
or any neuro keyword in the (lowercased) transcript yields risk score 88,
department Neurology, confidence 0.85; and detection — in fact the whole
rule-engine result — is identical for transcripts equal up to letter case. -/
theorem neuro_override :
    (∀ payload : ContextualPayload,
      crisisCond payload.vital_signs.blood_pressure = false →
      (payload.neuro_risk_detected = true ∨
        ∃ k ∈ neuroKeywords,
          includesJS (toLowerJS payload.symptom_transcript) k = true) →
      (fallbackAnalysis payload).risk_score = 88 ∧
      (fallbackAnalysis payload).department = "Neurology" ∧
      (fallbackAnalysis payload).confidence = 0.85 ∧
      (fallbackAnalysis payload).fallback_used = true) ∧
    (∀ (payload : ContextualPayload) (t1 t2 : String),
      toLowerJS t1 = toLowerJS t2 →
      fallbackAnalysis { payload with symptom_transcript := t1 } =
        fallbackAnalysis { payload with symptom_transcript := t2 }) := by
  constructor
  · intro payload hc hn
    have hcond : neuroCond payload.neuro_risk_detected
        (toLowerJS payload.symptom_transcript) = true := by
      unfold neuroCond
      simp only [Bool.or_eq_true, List.any_eq_true]
      rcases hn with h | ⟨k, hk, hik⟩
      · exact Or.inl h
      · exact Or.inr ⟨k, hk, hik⟩
    have hfa : fallbackAnalysis payload = neuroResult := by
      unfold fallbackAnalysis fallbackRules fallbackRulesAfterBP
      simp [hc, hcond]
    rw [hfa]
    exact ⟨rfl, rfl, rfl, rfl⟩
  · intro payload t1 t2 h
    show fallbackRules (toLowerJS t1) (toLowerJS payload.ehr_history)
        (ageOf payload) payload.neuro_risk_detected
        payload.vital_signs.blood_pressure =
      fallbackRules (toLowerJS t2) (toLowerJS payload.ehr_history)
        (ageOf payload) payload.neuro_risk_detected
        payload.vital_signs.blood_pressure
    rw [h]

/-- C3 witness: scenario B ("patient has a tremor" at BP 120/80), using the
keyword branch. -/
theorem neuro_override_witness :
    (fallbackAnalysis scenarioB).risk_score = 88 ∧
    (fallbackAnalysis scenarioB).department = "Neurology" ∧
    (fallbackAnalysis scenarioB).confidence = 0.85 ∧
    (fallbackAnalysis scenarioB).fallback_used = true :=
  neuro_override.1 scenarioB rfl (Or.inr ⟨"tremor", by decide, by decide⟩)

/-- C8: the risk-level classification is a pure total function of the score
— at least 75 maps to HIGH, 40 to 74 maps to MEDIUM, anything below 40
(including out-of-range values) maps to LOW — and the auto-analysis path
and the manual-diagnosis path compute the same mapping. -/
theorem risk_level_mapping (s : Int) :
    (75 ≤ s → mapRiskLevelAuto s = RiskLevel.HIGH) ∧
    (40 ≤ s → s < 75 → mapRiskLevelAuto s = RiskLevel.MEDIUM) ∧
    (s < 40 → mapRiskLevelAuto s = RiskLevel.LOW) ∧
    mapRiskLevelAuto s = mapRiskLevelManual s := by
  unfold mapRiskLevelAuto mapRiskLevelManual
  refine ⟨?_, ?_, ?_, rfl⟩
  · intro h
    rw [if_pos h]
  · intro h1 h2
    rw [if_neg (by omega), if_pos h1]
  · intro h
    rw [if_neg (by omega), if_neg (by omega)]

/-- C8 witness: score 80 maps to HIGH. -/
theorem risk_level_mapping_witness : mapRiskLevelAuto 80 = RiskLevel.HIGH :=
  (risk_level_mapping 80).1 (by decide)

/-- C5: whichever way the remote call fails — thrown fetch, timeout, non-ok
HTTP status, JSON decode failure, or a schema-invalid decoded object —
`analyzeTriage` returns exactly the rule-engine result for the same
payload, with fallback_used true; no failure escapes as an exception
(every branch of the model is a total function into `TriageResultJS`). -/
theorem remote_failure_fallback (parseJson : String → Option JVal)
    (payload : ContextualPayload) :
    analyzeTriage parseJson payload RemoteOutcome.netError =
      toJS (fallbackAnalysis payload) ∧
    analyzeTriage parseJson payload RemoteOutcome.timeout =
      toJS (fallbackAnalysis payload) ∧
    (∀ status : Nat,
      analyzeTriage parseJson payload (RemoteOutcome.httpError status) =
        toJS (fallbackAnalysis payload)) ∧
    (∀ rawText : Option String,
      parseJson (cleanJson (effectiveRawText rawText)) = none →
      analyzeTriage parseJson payload (RemoteOutcome.success rawText) =
        toJS (fallbackAnalysis payload)) ∧
    (∀ (rawText : Option String) (result : JVal),
      parseJson (cleanJson (effectiveRawText rawText)) = some result →
      (truthy (getProp result "risk_score") &&
        truthy (getProp result "department")) = false →
      analyzeTriage parseJson payload (RemoteOutcome.success rawText) =
        toJS (fallbackAnalysis payload)) ∧
    (toJS (fallbackAnalysis payload)).fallback_used = true := by
  refine ⟨rfl, rfl, fun _ => rfl, ?_, ?_, ?_⟩
  · intro rawText h
    simp only [analyzeTriage]
    rw [h]
  · intro rawText result h ht
    simp only [analyzeTriage]
    rw [h]
    simp [ht]
  · show (fallbackAnalysis payload).fallback_used = true
    exact fallback_used_true payload

/-- C5 witness: a decode failure on a 2xx response falls back. -/
theorem remote_failure_fallback_witness :
    analyzeTriage (fun _ => none) basePayload (RemoteOutcome.success (some "x")) =
      toJS (fallbackAnalysis basePayload) :=
  (remote_failure_fallback (fun _ => none) basePayload).2.2.2.1 (some "x") rfl

/-- C4 counterexample: the decoded object with numeric risk_score 0 and the
non-empty department "Cardiology" is NOT accepted — the line-166 check
`!result.risk_score` is a JS truthiness test, so a risk score of 0 is
treated as an incomplete response and the result falls back to the rule
engine, contradicting the claim that every decoded object with a numeric
risk_score and non-empty department is passed through. -/
def rejectedRemoteObj : JVal :=
  .jobj [("risk_score", .jnum 0), ("department", .jstr "Cardiology")]

/-- Raw remote text decoding to `rejectedRemoteObj`. -/
def rejectedRemoteRaw : String :=
  "\x7b\"risk_score\":0,\"department\":\"Cardiology\"\x7d"

/-- A decoder behaving like `JSON.parse` on `rejectedRemoteRaw`. -/
def rejectedRemoteParse : String → Option JVal :=
  fun s => if s = rejectedRemoteRaw then some rejectedRemoteObj else none

theorem remote_zero_score_rejected :
    getProp rejectedRemoteObj "risk_score" = JVal.jnum 0 ∧
    getProp rejectedRemoteObj "department" = JVal.jstr "Cardiology" ∧
    ("Cardiology" : String) ≠ "" ∧
    analyzeTriage rejectedRemoteParse basePayload
        (RemoteOutcome.success (some rejectedRemoteRaw)) =
      toJS (fallbackAnalysis basePayload) ∧
    (analyzeTriage rejectedRemoteParse basePayload
        (RemoteOutcome.success (some rejectedRemoteRaw))).fallback_used = true := by
  refine ⟨rfl, rfl, by decide, ?_, ?_⟩ <;> rfl

/-- C4 (amended): the remote response is treated as a failure exactly when
JSON decoding of the code-fence-stripped response text fails, or the
decoded object's risk_score property is falsy (absent, null, 0, empty, or
false), or its department property is falsy; every decoded object with
truthy risk_score and truthy department properties is accepted and its
three fields passed through. -/
theorem remote_validation (parseJson : String → Option JVal)
    (payload : ContextualPayload) (rawText : Option String) :
    (parseJson (cleanJson (effectiveRawText rawText)) = none →
      analyzeTriage parseJson payload (RemoteOutcome.success rawText) =
        toJS (fallbackAnalysis payload)) ∧
    (∀ result : JVal,
      parseJson (cleanJson (effectiveRawText rawText)) = some result →
      (truthy (getProp result "risk_score") = true ∧
          truthy (getProp result "department") = true →
        analyzeTriage parseJson payload (RemoteOutcome.success rawText) =
          { risk_score := getProp result "risk_score"
            department := getProp result "department"
            justification := getProp result "justification"
            confidence := 0.9
            fallback_used := false }) ∧
      (truthy (getProp result "risk_score") = false ∨
          truthy (getProp result "department") = false →
        analyzeTriage parseJson payload (RemoteOutcome.success rawText) =
          toJS (fallbackAnalysis payload))) := by
  constructor
  · intro h
    simp only [analyzeTriage]
    rw [h]
  · intro result h
    constructor
    · intro ⟨h1, h2⟩
      simp only [analyzeTriage]
      rw [h]
      simp [h1, h2]
    · intro hf
      simp only [analyzeTriage]
      rw [h]
      rcases hf with hf | hf <;> simp [hf]

/-- C4 witness: a decoded object with truthy fields is passed through. -/
def acceptedRemoteObj : JVal :=
  .jobj [("risk_score", .jnum 42), ("department", .jstr "Neurology"),
         ("justification", .jstr "Possible tremor")]

theorem remote_validation_witness :
    analyzeTriage (fun _ => some acceptedRemoteObj) basePayload
        (RemoteOutcome.success (some "x")) =
      { risk_score := JVal.jnum 42
        department := JVal.jstr "Neurology"
        justification := JVal.jstr "Possible tremor"
        confidence := 0.9
        fallback_used := false } :=
  ((remote_validation (fun _ => some acceptedRemoteObj) basePayload
      (some "x")).2 acceptedRemoteObj rfl).1 ⟨rfl, rfl⟩

/-- C2 counterexample: a decoded remote object with risk_score 150 and the
department "Telemetry" (outside the enumerated set) passes the truthiness
check and is returned verbatim with fallback_used false — so the claimed
bounds 0-100 and department enumeration do NOT hold on the remote-success
path. -/
def oorRemoteObj : JVal :=
  .jobj [("risk_score", .jnum 150), ("department", .jstr "Telemetry"),
         ("justification", .jstr "n/a")]

/-- Raw remote text decoding to `oorRemoteObj`. -/
def oorRemoteRaw : String :=
  "\x7b\"risk_score\":150,\"department\":\"Telemetry\"\x7d"

/-- A decoder behaving like `JSON.parse` on `oorRemoteRaw`. -/
def oorRemoteParse : String → Option JVal :=
  fun s => if s = oorRemoteRaw then some oorRemoteObj else none

theorem remote_passthrough_out_of_range :
    (analyzeTriage oorRemoteParse basePayload
        (RemoteOutcome.success (some oorRemoteRaw))).risk_score = JVal.jnum 150 ∧
    (analyzeTriage oorRemoteParse basePayload
        (RemoteOutcome.success (some oorRemoteRaw))).department =
      JVal.jstr "Telemetry" ∧
    (analyzeTriage oorRemoteParse basePayload
        (RemoteOutcome.success (some oorRemoteRaw))).fallback_used = false ∧
    ¬ ((150 : Int) ≤ 100) ∧
    ("Telemetry" : String) ∉ departmentEnum := by
  refine ⟨rfl, rfl, rfl, by decide, by decide⟩

/-- C2 (amended): every `analyzeTriage` result is either exactly the
rule-engine result (which always satisfies 0 ≤ risk_score ≤ 100, a
department from the enumerated set, a non-empty department, and
fallback_used true) or a remote-provided result carrying fallback_used
false — fallback_used is true iff the rule engine produced the result; the
remote path passes the decoded values through without range or enumeration
validation, so the bounds hold there only if the provider supplies them. -/
theorem triage_result_invariants (parseJson : String → Option JVal)
    (payload : ContextualPayload) (outcome : RemoteOutcome) :
    (analyzeTriage parseJson payload outcome = toJS (fallbackAnalysis payload) ∨
      (analyzeTriage parseJson payload outcome).fallback_used = false) ∧
    0 ≤ (fallbackAnalysis payload).risk_score ∧
    (fallbackAnalysis payload).risk_score ≤ 100 ∧
    (fallbackAnalysis payload).department ∈ departmentEnum ∧
    (fallbackAnalysis payload).department ≠ "" ∧
    (fallbackAnalysis payload).fallback_used = true := by
  refine ⟨?_, (fallback_score_bounds payload).1, (fallback_score_bounds payload).2,
    ?_, ?_, fallback_used_true payload⟩
  · cases outcome with
    | netError => exact Or.inl rfl
    | timeout => exact Or.inl rfl
    | httpError status => exact Or.inl rfl
    | success rawText =>
      simp only [analyzeTriage]
      cases hp : parseJson (cleanJson (effectiveRawText rawText)) with
      | none => exact Or.inl rfl
      | some result =>
        dsimp only
        by_cases hv : (truthy (getProp result "risk_score") &&
            truthy (getProp result "department")) = true
        · rw [if_pos hv]
          exact Or.inr rfl
        · rw [if_neg hv]
          exact Or.inl rfl
  · have h := fallback_dept_cases payload
    simp only [List.mem_cons, List.not_mem_nil, or_false] at h
    rcases h with h | h | h <;> rw [h] <;> simp [departmentEnum]
  · have h := fallback_dept_cases payload
    simp only [List.mem_cons, List.not_mem_nil, or_false] at h
    rcases h with h | h | h <;> rw [h] <;> decide

/-- C6 counterexample: the blood pressure "200/abc" does not consist of two
'/'-separated integers (its second part parses to NaN), yet the
hypertensive-crisis rule is NOT disabled: the systolic part alone exceeds
180 and the engine returns 95/Cardiology instead of the remaining rules'
result (risk score 15 for this payload). -/
theorem malformed_bp_fires_crisis :
    splitOnSlash "200/abc" = ["200", "abc"] ∧
    parseIntJS "abc" = none ∧
    (fallbackAnalysis payload200abc).risk_score = 95 ∧
    (fallbackAfterBP payload200abc).risk_score = 15 ∧
    (fallbackAnalysis payload200abc).risk_score ≠
      (fallbackAfterBP payload200abc).risk_score :=
  ⟨rfl, rfl, rfl, rfl, by decide⟩

/-- C6 (amended): `fallbackAnalysis` is total — a blood-pressure string
that does not split into exactly two '/'-separated parts (and, more
generally, any string on which the crisis comparison fails) only disables
the hypertensive-crisis rule, with the remaining rules evaluated in order;
an unparsable age string is treated as age 0 rather than raising an
error. -/
theorem fallback_total_defensive (payload : ContextualPayload) :
    ((splitOnSlash payload.vital_signs.blood_pressure).length ≠ 2 →
      fallbackAnalysis payload = fallbackAfterBP payload) ∧
    (crisisCond payload.vital_signs.blood_pressure = false →
      fallbackAnalysis payload = fallbackAfterBP payload) ∧
    (parseIntJS payload.patient_profile.age = none → ageOf payload = 0) := by
  have key : crisisCond payload.vital_signs.blood_pressure = false →
      fallbackAnalysis payload = fallbackAfterBP payload := by
    intro h
    unfold fallbackAnalysis fallbackRules fallbackAfterBP
    simp [h]
  refine ⟨?_, key, ?_⟩
  · intro hlen
    apply key
    unfold crisisCond
    rcases hsp : splitOnSlash payload.vital_signs.blood_pressure with
      _ | ⟨a, _ | ⟨b, _ | ⟨c, rest⟩⟩⟩
    · rfl
    · rfl
    · exact absurd (by rw [hsp]; rfl) hlen
    · rfl
  · intro h
    unfold ageOf
    rw [h]
    rfl

/-- C6 witness: a slash-free blood pressure and a non-numeric age. -/
theorem fallback_total_defensive_witness :
    fallbackAnalysis garbledPayload = fallbackAfterBP garbledPayload ∧
    ageOf garbledPayload = 0 :=
  ⟨(fallback_total_defensive garbledPayload).1 (by decide),
   (fallback_total_defensive garbledPayload).2.2 rfl⟩

/-- C7 counterexample: a payload aged 55 whose history is the single space
" " — non-empty as a string — does not receive the claimed 45/General
Medicine moderate classification: the source gates rule D on
`history.trim().length > 0`, so this payload falls through to the default
low-risk score 15. -/
theorem whitespace_history_skips_rule_d :
    wsHistoryPayload.ehr_history ≠ "" ∧
    50 ≤ ageOf wsHistoryPayload ∧
    crisisCond wsHistoryPayload.vital_signs.blood_pressure = false ∧
    neuroCond wsHistoryPayload.neuro_risk_detected
      (toLowerJS wsHistoryPayload.symptom_transcript) = false ∧
    (hasDiabetes (toLowerJS wsHistoryPayload.ehr_history) &&
      (hasFever (toLowerJS wsHistoryPayload.symptom_transcript) ||
        hasAbdominalSymptoms (toLowerJS wsHistoryPayload.symptom_transcript))) = false ∧
    (fallbackAnalysis wsHistoryPayload).risk_score = 15 ∧
    (15 : Int) ≠ 45 := by
  decide

/-- C7 (amended): for every payload not matched by the crisis or
neurological rules — if the history indicates diabetes and the transcript
indicates fever or abdominal symptoms, the result is General Medicine with
a risk score in the band 48-52, the higher end exactly when age ≥ 50;
otherwise, if age ≥ 50 and the history text is non-empty after trimming
whitespace, the result is risk score 45 with General Medicine. Scenario D
(BP 145/95, "mild headache", history "diabetes", age 55) scores 52, within
[45,55], General Medicine. -/
theorem moderate_risk_rules :
    (∀ payload : ContextualPayload,
      crisisCond payload.vital_signs.blood_pressure = false →
      neuroCond payload.neuro_risk_detected
        (toLowerJS payload.symptom_transcript) = false →
      ((hasDiabetes (toLowerJS payload.ehr_history) = true ∧
          (hasFever (toLowerJS payload.symptom_transcript) = true ∨
            hasAbdominalSymptoms (toLowerJS payload.symptom_transcript) = true)) →
        (fallbackAnalysis payload).department = "General Medicine" ∧
        48 ≤ (fallbackAnalysis payload).risk_score ∧
        (fallbackAnalysis payload).risk_score ≤ 52 ∧
        ((fallbackAnalysis payload).risk_score = 52 ↔ 50 ≤ ageOf payload)) ∧
      ((hasDiabetes (toLowerJS payload.ehr_history) &&
          (hasFever (toLowerJS payload.symptom_transcript) ||
            hasAbdominalSymptoms (toLowerJS payload.symptom_transcript))) = false →
        50 ≤ ageOf payload →
        0 < (trimJS (toLowerJS payload.ehr_history)).data.length →
        (fallbackAnalysis payload).risk_score = 45 ∧
        (fallbackAnalysis payload).department = "General Medicine")) ∧
    ((fallbackAnalysis scenarioD).risk_score = 52 ∧
      (fallbackAnalysis scenarioD).department = "General Medicine" ∧
      45 ≤ (fallbackAnalysis scenarioD).risk_score ∧
      (fallbackAnalysis scenarioD).risk_score ≤ 55) := by
  constructor
  · intro payload hc hn
    constructor
    · intro ⟨hd, hfa⟩
      have hcc : (hasDiabetes (toLowerJS payload.ehr_history) &&
          (hasFever (toLowerJS payload.symptom_transcript) ||
            hasAbdominalSymptoms (toLowerJS payload.symptom_transcript))) = true := by
        rcases hfa with h | h <;> simp [hd, h]
      have heq : fallbackAnalysis payload = diabetesResult (ageOf payload) := by
        unfold fallbackAnalysis fallbackRules fallbackRulesAfterBP
        simp [hc, hn, hcc]
      rw [heq]
      unfold diabetesResult
      refine ⟨rfl, ?_, ?_, ?_⟩ <;> dsimp only <;> split_ifs <;> omega
    · intro hcf hage hlen
      have heq : fallbackAnalysis payload = ageHistoryResult := by
        unfold fallbackAnalysis fallbackRules fallbackRulesAfterBP
        rw [if_neg (by simp [hc]), if_neg (by simp [hn]), if_neg (by simp [hcf]),
          if_pos ⟨hage, hlen⟩]
      rw [heq]
      exact ⟨rfl, rfl⟩
  · exact ⟨by decide, by decide, by decide, by decide⟩

/-- C7 witness: scenario D goes through the diabetes rule at age 55. -/
theorem moderate_risk_rules_witness :
    (fallbackAnalysis scenarioD).department = "General Medicine" ∧
    48 ≤ (fallbackAnalysis scenarioD).risk_score ∧
    (fallbackAnalysis scenarioD).risk_score ≤ 52 ∧
    ((fallbackAnalysis scenarioD).risk_score = 52 ↔ 50 ≤ ageOf scenarioD) :=
  (moderate_risk_rules.1 scenarioD (by decide) (by decide)).1
    ⟨by decide, Or.inr (by decide)⟩

/-- C9: the rule engine's codomain is finite — the (risk score, confidence)
pair is one of (95,0.9), (88,0.85), (52,0.8), (48,0.8), (45,0.7),
(15,0.6); the department is Cardiology, Neurology or General Medicine
(never Pulmonology); fallback_used is always true; the justification is
never empty; and a strictly higher risk score never comes with a strictly
lower confidence. -/
theorem fallback_codomain (p : ContextualPayload) :
    ((fallbackAnalysis p).risk_score, (fallbackAnalysis p).confidence) ∈ fallbackPairs ∧
    (fallbackAnalysis p).department ∈
      (["Cardiology", "Neurology", "General Medicine"] : List String) ∧
    (fallbackAnalysis p).department ≠ "Pulmonology" ∧
    (fallbackAnalysis p).fallback_used = true ∧
    (fallbackAnalysis p).justification ≠ "" ∧
    (∀ q : ContextualPayload,
      (fallbackAnalysis q).risk_score < (fallbackAnalysis p).risk_score →
      (fallbackAnalysis q).confidence ≤ (fallbackAnalysis p).confidence) := by
  refine ⟨fallback_pair_mem p, fallback_dept_cases p, ?_, fallback_used_true p,
    fallback_justification_ne p, ?_⟩
  · have h := fallback_dept_cases p
    simp only [List.mem_cons, List.not_mem_nil, or_false] at h
    rcases h with h | h | h <;> rw [h] <;> decide
  · intro q hlt
    have hp := fallback_pair_mem p
    have hq := fallback_pair_mem q
    simp only [fallbackPairs, List.mem_cons, List.not_mem_nil, or_false,
      Prod.mk.injEq] at hp hq
    rcases hp with ⟨hp1, hp2⟩ | ⟨hp1, hp2⟩ | ⟨hp1, hp2⟩ | ⟨hp1, hp2⟩ |
      ⟨hp1, hp2⟩ | ⟨hp1, hp2⟩ <;>
      rcases hq with ⟨hq1, hq2⟩ | ⟨hq1, hq2⟩ | ⟨hq1, hq2⟩ | ⟨hq1, hq2⟩ |
        ⟨hq1, hq2⟩ | ⟨hq1, hq2⟩ <;>
      rw [hp1, hq1] at hlt <;> rw [hp2, hq2] <;>
      first
        | (norm_num; done)
        | norm_num at hlt

/-- C9 witness: the low-risk confidence is below the crisis confidence. -/
theorem fallback_codomain_witness :
    (fallbackAnalysis basePayload).confidence ≤ (fallbackAnalysis scenarioA).confidence :=
  (fallback_codomain scenarioA).2.2.2.2.2 basePayload (by decide)

/-- C10: when the blood pressure splits into exactly two '/'-separated
parts, each part is parsed independently with a leading-integer parse and
the crisis rule fires iff the first parse exceeds 180 or the second
exceeds 110, a NaN parse comparing false: "200/abc" still receives the
95/Cardiology crisis classification even though the diastolic part is not
an integer, while "abc/abc" skips the rule. -/
theorem bp_leading_int_parse :
    (∀ (payload : ContextualPayload) (p0 p1 : String),
      splitOnSlash payload.vital_signs.blood_pressure = [p0, p1] →
      ((nanGtInt (parseIntJS p0) 180 || nanGtInt (parseIntJS p1) 110) = true →
        fallbackAnalysis payload = crisisResult payload.vital_signs.blood_pressure) ∧
      ((nanGtInt (parseIntJS p0) 180 || nanGtInt (parseIntJS p1) 110) = false →
        fallbackAnalysis payload = fallbackAfterBP payload)) ∧
    ((fallbackAnalysis payload200abc).risk_score = 95 ∧
      (fallbackAnalysis payload200abc).department = "Cardiology" ∧
      parseIntJS "abc" = none ∧
      fallbackAnalysis payloadAbcAbc = fallbackAfterBP payloadAbcAbc ∧
      (fallbackAnalysis payloadAbcAbc).risk_score = 15) := by
  constructor
  · intro payload p0 p1 hsplit
    constructor
    · intro h
      have hc : crisisCond payload.vital_signs.blood_pressure = true := by
        unfold crisisCond
        rw [hsplit]
        exact h
      unfold fallbackAnalysis fallbackRules
      simp [hc]
    · intro h
      have hc : crisisCond payload.vital_signs.blood_pressure = false := by
        unfold crisisCond
        rw [hsplit]
        exact h
      unfold fallbackAnalysis fallbackRules fallbackAfterBP
      simp [hc]
  · exact ⟨rfl, rfl, rfl, rfl, rfl⟩

/-- C10 witness: "200/abc" fires the crisis rule via its systolic part. -/
theorem bp_leading_int_parse_witness :
    fallbackAnalysis payload200abc = crisisResult "200/abc" :=
  (bp_leading_int_parse.1 payload200abc "200" "abc" rfl).1 rfl

end LifeQueue
